import Mathlib

/-!
Verification of the face-anchored photo-crop engine of this repository
(src/core/cropper.py, src/utils/file_handler.py, src/main.py).

Modelling conventions:
* Python floats are modelled as exact rationals (`ℚ`); the float-to-int
  conversion `int(x)` truncates toward zero and is modelled by `pyInt`;
  Python integer floor division `//` is `Int.fdiv`.
* An image (numpy array of shape `h × w × 3`, BGR) is a height, a width and
  a pixel function.
* The resampling kernel of `cv2.resize` computes floating-point pixel
  values; only the output dimensions of a resize are modelled exactly
  (they are the only thing any claim states about it).
-/

/-- Python `int(x)` applied to a float: truncation toward zero. -/
def pyInt (q : ℚ) : ℤ := if 0 ≤ q then ⌊q⌋ else -⌊-q⌋

/-- One BGR pixel; channels are 8-bit values modelled as naturals. -/
structure Pix where
  b : ℕ
  g : ℕ
  r : ℕ
  deriving DecidableEq

/-- A pixel buffer: height, width, and the pixel at each (row, column). -/
structure Img where
  h : ℕ
  w : ℕ
  pix : ℕ → ℕ → Pix

/-- Sum of one channel over all pixels of the image (the sums behind
`cv2.mean`). -/
def channelSum (img : Img) (ch : Pix → ℕ) : ℕ :=
  ∑ i in Finset.range img.h, ∑ j in Finset.range img.w, ch (img.pix i j)

/-- The configuration fields of `PhotoCardCropper` (src/core/cropper.py,
lines 181-197). `aspect_ratio`, `default_output_width` and
`default_output_height` are derived fields computed by `__init__`. -/
structure Cropper where
  zoom_factor : ℚ
  eye_position : ℚ
  width_mm : ℚ
  height_mm : ℚ
  padding_mode : String
  fallback_on_no_face : Bool
  preserve_resolution : Bool
  min_output_height : ℤ
  offset_x : ℚ
  offset_y : ℚ
  aspect_ratio : ℚ
  default_output_width : ℤ
  default_output_height : ℤ

/-- `PhotoCardCropper.__init__` (src/core/cropper.py lines 153-205).
It performs no validation of its arguments; the only way it can fail is
the `ZeroDivisionError` raised by `width_mm / height_mm` when
`height_mm = 0`, modelled as `none`. -/
def mkCropper (zoom eye wmm hmm : ℚ) (mode : String) (fb pres : Bool)
    (minh : ℤ) (ox oy : ℚ) : Option Cropper :=
  if hmm = 0 then none
  else some
    { zoom_factor := zoom
      eye_position := eye
      width_mm := wmm
      height_mm := hmm
      padding_mode := mode
      fallback_on_no_face := fb
      preserve_resolution := pres
      min_output_height := minh
      offset_x := ox
      offset_y := oy
      aspect_ratio := wmm / hmm
      default_output_width := pyInt (wmm * 10)
      default_output_height := pyInt (hmm * 10) }

/-- The size validation of `PhotoCardCropperApp._start_processing`
(src/main.py lines 1070-1078): after a successful float parse it raises
`ValueError` (and returns without processing) iff `width_mm ≤ 0` or
`height_mm ≤ 0`.  `zoom_factor` is not examined anywhere. -/
def gui_validate_size (wmm hmm : ℚ) : Bool :=
  !(decide (wmm ≤ 0) || decide (hmm ≤ 0))

/-- `PhotoCardCropper._calculate_crop_region` (src/core/cropper.py lines
226-255).  The bounding box is `(x, y, w, h)`; only `h` is read.  The two
trailing arguments model the optional per-call offset overrides. -/
def calculate_crop_region (c : Cropper) (bbox : ℤ × ℤ × ℤ × ℤ)
    (eye_center : ℤ × ℤ) (offX offY : Option ℚ) : ℤ × ℤ × ℤ × ℤ :=
  let off_x := offX.getD c.offset_x
  let off_y := offY.getD c.offset_y
  let crop_height := pyInt ((bbox.2.2.2 : ℚ) * c.zoom_factor)
  let crop_width := pyInt ((crop_height : ℚ) * c.aspect_ratio)
  let crop_y := eye_center.2 - pyInt ((crop_height : ℚ) * c.eye_position)
  let crop_x := eye_center.1 - Int.fdiv crop_width 2
  let crop_x2 := crop_x + pyInt ((crop_width : ℚ) * off_x)
  let crop_y2 := crop_y + pyInt ((crop_height : ℚ) * off_y)
  (crop_x2, crop_y2, crop_width, crop_height)

/-- The crop-geometry formula exactly as the spec words it (section 4.2):
every real-to-int conversion is a floor. Used only to compare against the
source-derived `calculate_crop_region`. -/
def specCropRegionFloor (c : Cropper) (bbox : ℤ × ℤ × ℤ × ℤ)
    (anchor : ℤ × ℤ) (ox oy : ℚ) : ℤ × ℤ × ℤ × ℤ :=
  let cropHeight := ⌊(bbox.2.2.2 : ℚ) * c.zoom_factor⌋
  let cropWidth := ⌊(cropHeight : ℚ) * c.aspect_ratio⌋
  let cropY := anchor.2 - ⌊(cropHeight : ℚ) * c.eye_position⌋ + ⌊(cropHeight : ℚ) * oy⌋
  let cropX := anchor.1 - Int.fdiv cropWidth 2 + ⌊(cropWidth : ℚ) * ox⌋
  (cropX, cropY, cropWidth, cropHeight)

/-- The amended crop-geometry formula: identical to the spec formula except
that every float-to-int conversion truncates toward zero (Python `int`),
as the source does. -/
def specCropRegionTrunc (c : Cropper) (bbox : ℤ × ℤ × ℤ × ℤ)
    (anchor : ℤ × ℤ) (ox oy : ℚ) : ℤ × ℤ × ℤ × ℤ :=
  let cropHeight := pyInt ((bbox.2.2.2 : ℚ) * c.zoom_factor)
  let cropWidth := pyInt ((cropHeight : ℚ) * c.aspect_ratio)
  let cropY := anchor.2 - pyInt ((cropHeight : ℚ) * c.eye_position) + pyInt ((cropHeight : ℚ) * oy)
  let cropX := anchor.1 - Int.fdiv cropWidth 2 + pyInt ((cropWidth : ℚ) * ox)
  (cropX, cropY, cropWidth, cropHeight)

/-- `PhotoCardCropper._get_padding_color` (src/core/cropper.py lines
257-263): white for mode "white", per-channel `int(mean)` for mode
"average" (`cv2.mean` divides each channel sum by the pixel count), white
for everything else. -/
def get_padding_color (c : Cropper) (img : Img) : Pix :=
  if c.padding_mode = "white" then ⟨255, 255, 255⟩
  else if c.padding_mode = "average" then
    let n : ℚ := ((img.h * img.w : ℕ) : ℚ)
    ⟨(pyInt ((channelSum img Pix.b : ℚ) / n)).toNat,
     (pyInt ((channelSum img Pix.g : ℚ) / n)).toNat,
     (pyInt ((channelSum img Pix.r : ℚ) / n)).toNat⟩
  else ⟨255, 255, 255⟩

/-- The average fill exactly as the spec words it (section 4.3): arithmetic
mean of all source pixels, per channel, rounded to the NEAREST integer.
Used only to compare against the source-derived `get_padding_color`. -/
def specAverageFill (img : Img) : Pix :=
  let n : ℚ := ((img.h * img.w : ℕ) : ℚ)
  ⟨(round ((channelSum img Pix.b : ℚ) / n)).toNat,
   (round ((channelSum img Pix.g : ℚ) / n)).toNat,
   (round ((channelSum img Pix.r : ℚ) / n)).toNat⟩

/-- OpenCV index reflection for `BORDER_REFLECT_101` (reflection that does
not repeat the edge pixel), the closed form of the reflection loop of
`cv::borderInterpolate`; a length-one axis always maps to index 0. -/
def reflIdx (len : ℕ) (p : ℤ) : ℕ :=
  if len ≤ 1 then 0
  else
    let m := (p % (2 * ((len : ℤ) - 1))).toNat
    if m < len then m else 2 * (len - 1) - m

/-- `cv2.copyMakeBorder(image, top, bottom, left, right,
cv2.BORDER_REFLECT_101)`. -/
def copyMakeBorderReflect (img : Img) (top bottom left right : ℕ) : Img :=
  { h := img.h + top + bottom
    w := img.w + left + right
    pix := fun i j => img.pix (reflIdx img.h ((i : ℤ) - top)) (reflIdx img.w ((j : ℤ) - left)) }

/-- Numpy slice-index normalization for a step-one slice bound: negative
bounds count from the end, and bounds are clamped to `[0, len]`. -/
def npIdx (len : ℕ) (i : ℤ) : ℕ :=
  if i < 0 then ((len : ℤ) + i).toNat else min i.toNat len

/-- The numpy slice `image[y1:y2, x1:x2]`. -/
def npSlice (img : Img) (y1 y2 x1 x2 : ℤ) : Img :=
  let r1 := npIdx img.h y1
  let r2 := npIdx img.h y2
  let c1 := npIdx img.w x1
  let c2 := npIdx img.w x2
  { h := r2 - r1, w := c2 - c1, pix := fun i j => img.pix (r1 + i) (c1 + j) }

/-- `PhotoCardCropper._crop_with_padding` (src/core/cropper.py lines
265-307).  Mirror mode extends the source by the four out-of-bounds
extents with reflect-101 and slices; every other mode allocates a buffer
of the requested size filled with the padding color and copies the
intersection of the crop rectangle with the source into it. -/
def crop_with_padding (c : Cropper) (img : Img)
    (crop_x crop_y crop_width crop_height : ℤ) : Img :=
  let padding_color := get_padding_color c img
  if c.padding_mode = "mirror" then
    let pad_left := max 0 (-crop_x)
    let pad_top := max 0 (-crop_y)
    let pad_right := max 0 (crop_x + crop_width - img.w)
    let pad_bottom := max 0 (crop_y + crop_height - img.h)
    if 0 < pad_left ∨ 0 < pad_top ∨ 0 < pad_right ∨ 0 < pad_bottom then
      let img2 := copyMakeBorderReflect img pad_top.toNat pad_bottom.toNat pad_left.toNat pad_right.toNat
      let cx := crop_x + pad_left
      let cy := crop_y + pad_top
      npSlice img2 cy (cy + crop_height) cx (cx + crop_width)
    else
      npSlice img crop_y (crop_y + crop_height) crop_x (crop_x + crop_width)
  else
    let src_x1 := max 0 crop_x
    let src_y1 := max 0 crop_y
    let src_x2 := min (img.w : ℤ) (crop_x + crop_width)
    let src_y2 := min (img.h : ℤ) (crop_y + crop_height)
    let dst_x1 := src_x1 - crop_x
    let dst_y1 := src_y1 - crop_y
    let dst_x2 := dst_x1 + (src_x2 - src_x1)
    let dst_y2 := dst_y1 + (src_y2 - src_y1)
    { h := crop_height.toNat
      w := crop_width.toNat
      pix := fun i j =>
        if src_x1 < src_x2 ∧ src_y1 < src_y2 ∧
            dst_y1 ≤ (i : ℤ) ∧ (i : ℤ) < dst_y2 ∧ dst_x1 ≤ (j : ℤ) ∧ (j : ℤ) < dst_x2 then
          img.pix (src_y1 + (i : ℤ) - dst_y1).toNat (src_x1 + (j : ℤ) - dst_x1).toNat
        else padding_color }

/-- `cv2.resize(img, (newW, newH), interpolation=cv2.INTER_LANCZOS4)`.
The output dimensions are exact; the resampled pixel values are
floating-point numerics that no claim mentions, so the content is modelled
as source sampling only. -/
def cvResize (img : Img) (newW newH : ℤ) : Img :=
  { h := newH.toNat
    w := newW.toNat
    pix := fun i j => img.pix (i * img.h / newH.toNat) (j * img.w / newW.toNat) }

/-- The resolution-normalization tail of `PhotoCardCropper.process_image`
(src/core/cropper.py lines 445-460, identical in
`process_image_from_array` lines 525-539). -/
def normalize_resolution (c : Cropper) (img : Img) : Img :=
  if c.preserve_resolution then
    if (img.h : ℤ) < c.min_output_height then
      let scale : ℚ := (c.min_output_height : ℚ) / (img.h : ℚ)
      cvResize img (pyInt ((img.w : ℚ) * scale)) c.min_output_height
    else img
  else cvResize img c.default_output_width c.default_output_height

/-- Area key used by `_detect_largest_face`: `f[2] * f[3]` for a detector
rectangle `(x, y, w, h)`. -/
def faceArea (f : ℕ × ℕ × ℕ × ℕ) : ℕ := f.2.2.1 * f.2.2.2

/-- One step of Python `max(faces, key=...)`: the running best is replaced
only when the new key is strictly greater, so the first maximal element
wins. -/
def pyMaxStep (best x : ℕ × ℕ × ℕ × ℕ) : ℕ × ℕ × ℕ × ℕ :=
  if faceArea best < faceArea x then x else best

/-- The selection logic of `PhotoCardCropper._detect_largest_face`
(src/core/cropper.py lines 216-224): `None` on an empty detector result,
otherwise `max(faces, key=lambda f: f[2] * f[3])`.  The eye-center lookup
performed on the selected rectangle is not part of the selection and is
not modelled. -/
def detect_largest_face (faces : List (ℕ × ℕ × ℕ × ℕ)) : Option (ℕ × ℕ × ℕ × ℕ) :=
  match faces with
  | [] => none
  | f :: rest => some (rest.foldl pyMaxStep f)

/-- The batch counters of `BatchProcessor` (src/utils/file_handler.py
lines 320-333). -/
structure Stats where
  total : ℕ
  success : ℕ
  failed : ℕ
  skipped : ℕ
  deriving DecidableEq

/-- Everything about one file that determines which counter its iteration
of `BatchProcessor.process_batch` increments: whether the output path
already exists, the value returned by `cropper.process_image`, whether
`save_image` returned a path, and whether an exception escaped some other
part of the loop body (progress callback or path computation; such an
exception is caught by the per-file handler). -/
structure FileInfo where
  outputExists : Bool
  cropResult : Option Unit
  saveOk : Bool
  raises : Bool
  deriving DecidableEq

/-- The outcome of `PhotoCardCropper.process_image` as a function of its
control flow (src/core/cropper.py lines 411-469): `None` when the image
fails to load, `None` when no face is found and `fallback_on_no_face` is
false, otherwise a processed image.  (Internal exceptions also yield
`None`; they are covered by `FileInfo.raises` at the batch level.) -/
def process_image_result (loadOk faceFound fallback : Bool) : Option Unit :=
  if !loadOk then none
  else if !faceFound && !fallback then none
  else some ()

/-- One iteration of the loop of `BatchProcessor.process_batch`
(src/utils/file_handler.py lines 352-389): an escaping exception counts as
failed; an existing output with `skip_existing` counts as skipped;
otherwise a `None` crop result or a failed save counts as failed and a
successful save as success.  Exactly one counter grows by exactly one. -/
def stepFile (skipExisting : Bool) (s : Stats) (f : FileInfo) : Stats :=
  if f.raises then { s with failed := s.failed + 1 }
  else if skipExisting && f.outputExists then { s with skipped := s.skipped + 1 }
  else
    match f.cropResult with
    | some _ =>
        if f.saveOk then { s with success := s.success + 1 }
        else { s with failed := s.failed + 1 }
    | none => { s with failed := s.failed + 1 }

/-- The statistics at the start of `process_batch`: `reset_stats` followed
by `self.stats[total] = len(images)` (src/utils/file_handler.py lines
341-344). -/
def initStats (files : List FileInfo) : Stats :=
  { total := files.length, success := 0, failed := 0, skipped := 0 }

/-- The statistics after the first `k` files of the batch loop have been
handled (the state mid-run). -/
def statsAfter (skipExisting : Bool) (files : List FileInfo) (k : ℕ) : Stats :=
  (files.take k).foldl (stepFile skipExisting) (initStats files)

/-- `BatchProcessor.process_batch` (src/utils/file_handler.py lines
335-398): reset, record the total, then handle every file in order. -/
def process_batch (skipExisting : Bool) (files : List FileInfo) : Stats :=
  files.foldl (stepFile skipExisting) (initStats files)

/-- How the body of the big `try` of `process_image` /
`process_image_from_array` ended.  The `finally` block runs in every
case. -/
inductive BodyOutcome
  | finished
  | returnedNone
  | raised

/-- The mutate-then-restore sequence shared by `process_image` and
`process_image_from_array` (src/core/cropper.py lines 402-409 and 471-477,
489-504 and 547-551): save the five shared config fields, install the
per-call overrides, run the body (which only reads these fields), then
restore in `finally`; the aspect ratio is restored exactly when it was
overridden. -/
def overrideAndRestore (c : Cropper) (zoom eye offx offy : Option ℚ)
    (aspectOverride : Option ℚ) : Cropper :=
  let c1 :=
    match aspectOverride with
    | some a => { c with aspect_ratio := a }
    | none => c
  let c2 := { c1 with
    zoom_factor := zoom.getD c.zoom_factor
    eye_position := eye.getD c.eye_position
    offset_x := offx.getD c.offset_x
    offset_y := offy.getD c.offset_y }
  let c3 := { c2 with
    zoom_factor := c.zoom_factor
    eye_position := c.eye_position
    offset_x := c.offset_x
    offset_y := c.offset_y }
  match aspectOverride with
  | some _ => { c3 with aspect_ratio := c.aspect_ratio }
  | none => c3

/-- The effect of one call of `PhotoCardCropper.process_image`
(src/core/cropper.py lines 364-477) on the shared configuration object,
together with how the call ended.  When both `width_mm` and `height_mm`
are supplied and `height_mm = 0`, the division on line 398 raises before
any field has been written. -/
def process_image_config (c : Cropper) (zoom eye wmm hmm offx offy : Option ℚ)
    (outcome : BodyOutcome) : BodyOutcome × Cropper :=
  match wmm, hmm with
  | some w, some hm =>
      if hm = 0 then (BodyOutcome.raised, c)
      else (outcome, overrideAndRestore c zoom eye offx offy (some (w / hm)))
  | _, _ => (outcome, overrideAndRestore c zoom eye offx offy none)

/-- The effect of one call of `PhotoCardCropper.process_image_from_array`
(src/core/cropper.py lines 479-551) on the shared configuration object:
the same save/mutate/restore sequence, with no aspect-ratio override. -/
def process_image_from_array_config (c : Cropper) (zoom eye offx offy : Option ℚ)
    (outcome : BodyOutcome) : BodyOutcome × Cropper :=
  (outcome, overrideAndRestore c zoom eye offx offy none)

/-- Concrete configuration used to exhibit the floor/truncation divergence
in the crop geometry: a 55x55 mm square target (aspect ratio 1), zoom 2,
eye position 2/5, horizontal offset -1/4.  All values are exactly
representable binary floats, so the rational model coincides with the
float computation here. -/
def cropperC2 : Cropper :=
  { zoom_factor := 2
    eye_position := 2/5
    width_mm := 55
    height_mm := 55
    padding_mode := "white"
    fallback_on_no_face := true
    preserve_resolution := true
    min_output_height := 850
    offset_x := -1/4
    offset_y := 0
    aspect_ratio := 1
    default_output_width := 550
    default_output_height := 550 }

/-- C2: counterexample.  On a bounding box of height 1 with zoom 2, aspect
ratio 1 and offset_x = -1/4, the source computes
crop_x = 10 - 1 + int(2 * (-1/4)) = 9 (Python int truncates -1/2 to 0),
while the spec formula floors: crop_x = 10 - 1 + floor(-1/2) = 8. -/
theorem calculate_crop_region_floor_cex :
    calculate_crop_region cropperC2 (0, 0, 1, 1) (10, 10) none none = (9, 10, 2, 2) ∧
    specCropRegionFloor cropperC2 (0, 0, 1, 1) (10, 10) (-1/4) 0 = (8, 10, 2, 2) := by
  constructor
  · norm_num [calculate_crop_region, cropperC2, pyInt, Int.fdiv]
  · norm_num [specCropRegionFloor, cropperC2, Int.fdiv]

/-- C2 (amended): the crop geometry follows the spec formulas with every
float-to-int conversion truncating toward zero (Python int) instead of
flooring, offsets included and never clamped; truncation and floor agree
whenever the converted product is nonnegative, and differ on negative
non-integral offset products. -/
theorem calculate_crop_region_truncates (c : Cropper) (bbox : ℤ × ℤ × ℤ × ℤ)
    (eye_center : ℤ × ℤ) (offX offY : Option ℚ) :
    calculate_crop_region c bbox eye_center offX offY =
      specCropRegionTrunc c bbox eye_center (offX.getD c.offset_x) (offY.getD c.offset_y) :=
  rfl

/-- C8: counterexample.  A configuration with zoom_factor = -1 passes the
GUI size validation (which only examines width_mm and height_mm) and is
accepted unchecked by the PhotoCardCropper constructor, so processing
begins with a non-positive zoom factor. -/
theorem nonpositive_zoom_not_rejected_cex :
    gui_validate_size 55 85 = true ∧
    (mkCropper (-1) (2/5) 55 85 "white" true true 850 0 0).isSome = true := by
  constructor
  · norm_num [gui_validate_size]
  · norm_num [mkCropper]

/-- C8 (amended): the GUI validation rejects exactly non-positive width_mm
or height_mm; zoom_factor is never validated, and the constructor accepts
every configuration whose height_mm is nonzero. -/
theorem validation_rejects_only_nonpositive_size (zoom eye wmm hmm : ℚ)
    (mode : String) (fb pres : Bool) (minh : ℤ) (ox oy : ℚ) (h : hmm ≠ 0) :
    (gui_validate_size wmm hmm = true ↔ (0 < wmm ∧ 0 < hmm)) ∧
    (mkCropper zoom eye wmm hmm mode fb pres minh ox oy).isSome = true := by
  constructor
  · simp [gui_validate_size, not_le, not_or]
  · simp [mkCropper, h]

/-- C8 witness: instantiating the amended statement at zoom_factor = -1,
width 55, height 85. -/
theorem validation_rejects_only_nonpositive_size_witness :
    (gui_validate_size 55 85 = true ↔ ((0 : ℚ) < 55 ∧ (0 : ℚ) < 85)) ∧
    (mkCropper (-1) (2/5) 55 85 "white" true true 850 0 0).isSome = true :=
  validation_rejects_only_nonpositive_size (-1) (2/5) 55 85 "white" true true 850 0 0
    (by norm_num)

/-- C9: both processing entry points restore zoom_factor, eye_position,
offset_x, offset_y and aspect_ratio to their pre-call values whatever the
per-call overrides and however the call ended (normal result, None, or an
exception), so overrides never persist in the shared configuration. -/
theorem process_calls_restore_config (c : Cropper)
    (zoom eye wmm hmm offx offy : Option ℚ) (outcome : BodyOutcome) :
    ((process_image_config c zoom eye wmm hmm offx offy outcome).2.zoom_factor = c.zoom_factor ∧
     (process_image_config c zoom eye wmm hmm offx offy outcome).2.eye_position = c.eye_position ∧
     (process_image_config c zoom eye wmm hmm offx offy outcome).2.offset_x = c.offset_x ∧
     (process_image_config c zoom eye wmm hmm offx offy outcome).2.offset_y = c.offset_y ∧
     (process_image_config c zoom eye wmm hmm offx offy outcome).2.aspect_ratio = c.aspect_ratio) ∧
    ((process_image_from_array_config c zoom eye offx offy outcome).2.zoom_factor = c.zoom_factor ∧
     (process_image_from_array_config c zoom eye offx offy outcome).2.eye_position = c.eye_position ∧
     (process_image_from_array_config c zoom eye offx offy outcome).2.offset_x = c.offset_x ∧
     (process_image_from_array_config c zoom eye offx offy outcome).2.offset_y = c.offset_y ∧
     (process_image_from_array_config c zoom eye offx offy outcome).2.aspect_ratio = c.aspect_ratio) := by
  constructor
  · unfold process_image_config
    cases wmm with
    | none => simp [overrideAndRestore]
    | some w =>
      cases hmm with
      | none => simp [overrideAndRestore]
      | some hm =>
        by_cases h0 : hm = 0
        · simp [h0]
        · simp [h0, overrideAndRestore]
  · simp [process_image_from_array_config, overrideAndRestore]

/-- Helper for the largest-face selection: Python max with an area key,
folded over the tail, yields an element whose area bounds every listed
area and which is the first list element attaining that area. -/
theorem pyMax_foldl_spec (l : List (ℕ × ℕ × ℕ × ℕ)) (f : ℕ × ℕ × ℕ × ℕ) :
    (∀ x ∈ f :: l, faceArea x ≤ faceArea (l.foldl pyMaxStep f)) ∧
    (f :: l).find? (fun x => faceArea x == faceArea (l.foldl pyMaxStep f)) =
      some (l.foldl pyMaxStep f) := by
  induction l generalizing f with
  | nil =>
    refine ⟨?_, ?_⟩
    · intro x hx
      simp only [List.foldl_nil]
      rw [List.mem_singleton.mp hx]
    · simp [List.find?]
  | cons y t ih =>
    simp only [List.foldl_cons]
    by_cases hy : faceArea f < faceArea y
    · rw [show pyMaxStep f y = y from if_pos hy]
      obtain ⟨ih1, ih2⟩ := ih y
      set r := t.foldl pyMaxStep y with hr
      have hyr : faceArea y ≤ faceArea r := ih1 y (List.mem_cons_self _ _)
      have hlt : faceArea f < faceArea r := lt_of_lt_of_le hy hyr
      set p : (ℕ × ℕ × ℕ × ℕ) → Bool := fun x => faceArea x == faceArea r with hp
      refine ⟨?_, ?_⟩
      · intro x hx
        rcases List.mem_cons.mp hx with rfl | hx2
        · exact le_of_lt hlt
        · exact ih1 x hx2
      · have hpf : ¬ p f = true := by
          simp only [hp, beq_iff_eq]
          omega
        rw [List.find?_cons_of_neg _ hpf]
        exact ih2
    · rw [show pyMaxStep f y = f from if_neg hy]
      obtain ⟨ih1, ih2⟩ := ih f
      set r := t.foldl pyMaxStep f with hr
      have hfr : faceArea f ≤ faceArea r := ih1 f (List.mem_cons_self _ _)
      have hyf : faceArea y ≤ faceArea f := not_lt.mp hy
      set p : (ℕ × ℕ × ℕ × ℕ) → Bool := fun x => faceArea x == faceArea r with hp
      refine ⟨?_, ?_⟩
      · intro x hx
        rcases List.mem_cons.mp hx with rfl | hx2
        · exact hfr
        · rcases List.mem_cons.mp hx2 with rfl | hx3
          · exact le_trans hyf hfr
          · exact ih1 x (List.mem_cons_of_mem _ hx3)
      · by_cases hface : faceArea f = faceArea r
        · have hppos : p f = true := by
            simp [hp, hface]
          have h1 : (f :: y :: t).find? p = some f := List.find?_cons_of_pos _ hppos
          have h2 : (f :: t).find? p = some f := List.find?_cons_of_pos _ hppos
          have h3 : some r = some f := ih2.symm.trans h2
          rw [h1]
          exact h3.symm
        · have hpf : ¬ p f = true := by
            simp [hp, hface]
          have ht : t.find? p = some r := by
            rw [List.find?_cons_of_neg _ hpf] at ih2
            exact ih2
          have hpy : ¬ p y = true := by
            simp only [hp, beq_iff_eq]
            omega
          rw [List.find?_cons_of_neg _ hpf, List.find?_cons_of_neg _ hpy]
          exact ht

/-- C6: the selected face has the greatest area among all detector
rectangles, and when several rectangles tie for the greatest area the
selected one is the first of them in detector-return order, for every
detector output list. -/
theorem detect_largest_face_first_max (faces : List (ℕ × ℕ × ℕ × ℕ))
    (r : ℕ × ℕ × ℕ × ℕ) (h : detect_largest_face faces = some r) :
    (∀ x ∈ faces, faceArea x ≤ faceArea r) ∧
    faces.find? (fun x => faceArea x == faceArea r) = some r := by
  cases faces with
  | nil => simp [detect_largest_face] at h
  | cons f rest =>
    have hr : rest.foldl pyMaxStep f = r := by
      simpa [detect_largest_face] using h
    have hspec := pyMax_foldl_spec rest f
    rw [hr] at hspec
    exact hspec

/-- Detector output with one area-100 box followed by two tied area-400
boxes. -/
def facesEx : List (ℕ × ℕ × ℕ × ℕ) := [(0, 0, 10, 10), (0, 0, 20, 20), (5, 5, 20, 20)]

/-- C6 witness: on a concrete list with areas 100, 400, 400 the selection
returns the first area-400 box. -/
theorem detect_largest_face_first_max_witness :
    (∀ x ∈ facesEx, faceArea x ≤ faceArea ((0, 0, 20, 20) : ℕ × ℕ × ℕ × ℕ)) ∧
    facesEx.find? (fun x => faceArea x == faceArea ((0, 0, 20, 20) : ℕ × ℕ × ℕ × ℕ)) =
      some (0, 0, 20, 20) :=
  detect_largest_face_first_max facesEx (0, 0, 20, 20) (by decide)

/-- Helper: every iteration of the batch loop grows exactly one of the
three outcome counters by exactly one and leaves the total unchanged. -/
theorem foldl_stepFile_counts (skipEx : Bool) (l : List FileInfo) (s : Stats) :
    ((l.foldl (stepFile skipEx) s).success + (l.foldl (stepFile skipEx) s).failed +
      (l.foldl (stepFile skipEx) s).skipped = s.success + s.failed + s.skipped + l.length) ∧
    (l.foldl (stepFile skipEx) s).total = s.total := by
  induction l generalizing s with
  | nil => simp
  | cons f t ih =>
    simp only [List.foldl_cons, List.length_cons]
    obtain ⟨ih1, ih2⟩ := ih (stepFile skipEx s f)
    have hstep : (stepFile skipEx s f).success + (stepFile skipEx s f).failed +
        (stepFile skipEx s f).skipped = s.success + s.failed + s.skipped + 1 ∧
        (stepFile skipEx s f).total = s.total := by
      rcases f with ⟨oe, cr, so, ra⟩
      cases ra <;> cases oe <;> cases so <;> cases cr <;> cases skipEx <;>
        simp [stepFile] <;> omega
    refine ⟨by omega, by rw [ih2, hstep.2]⟩

/-- C5 (amended): after the batch loop completes the three outcome
counters sum to the recorded total; mid-run, after any number k of files
has been handled, they sum to the number of files handled so far (not yet
the total), while the total field already holds the full file count. -/
theorem batch_stats_sum_total (skipEx : Bool) (files : List FileInfo) (k : ℕ) :
    ((process_batch skipEx files).success + (process_batch skipEx files).failed +
      (process_batch skipEx files).skipped = (process_batch skipEx files).total) ∧
    ((statsAfter skipEx files k).success + (statsAfter skipEx files k).failed +
      (statsAfter skipEx files k).skipped = min k files.length) ∧
    (statsAfter skipEx files k).total = files.length := by
  have h1 := foldl_stepFile_counts skipEx files (initStats files)
  have h2 := foldl_stepFile_counts skipEx (files.take k) (initStats files)
  have hlen : (files.take k).length = min k files.length := List.length_take k files
  simp only [process_batch, statsAfter]
  refine ⟨?_, ?_, ?_⟩
  · rw [h1.1, h1.2]
    simp [initStats]
  · rw [h2.1, hlen]
    simp [initStats]
  · rw [h2.2]
    simp [initStats]

/-- A file that loads, crops and saves without incident. -/
def oneGoodFile : FileInfo :=
  { outputExists := false, cropResult := some (), saveOk := true, raises := false }

/-- C5: counterexample.  In a one-file batch, at the point of the run where
the total has been recorded but the file has not yet been handled, the
counters sum to 0 while total = 1, so the invariant does not hold at every
point during the run. -/
theorem batch_invariant_mid_run_cex :
    ¬ ((statsAfter true [oneGoodFile] 0).success + (statsAfter true [oneGoodFile] 0).failed +
       (statsAfter true [oneGoodFile] 0).skipped = (statsAfter true [oneGoodFile] 0).total) := by
  decide

/-- A file whose image loads but contains no detectable face, processed
with fallback_on_no_face disabled: process_image returns None. -/
def noFaceFile : FileInfo :=
  { outputExists := false, cropResult := process_image_result true false false,
    saveOk := true, raises := false }

/-- C4: counterexample.  A one-file batch whose file triggers the
no-face-and-fallback-disabled path records the file as failed (failed = 1,
skipped = 0), not as skipped as the claim states. -/
theorem no_face_skip_recorded_as_failed_cex :
    (process_batch true [noFaceFile]).failed = 1 ∧
    (process_batch true [noFaceFile]).skipped = 0 := by
  decide

/-- C4 (amended): a file on which face detection finds nothing while
fallback_on_no_face is false makes process_image return None, and the
batch loop counts every None result as failed; the skipped counter is
reserved for the skip-existing-output policy. -/
theorem no_face_no_fallback_counts_failed (skipEx : Bool) (s : Stats) (f : FileInfo)
    (h1 : f.raises = false) (h2 : f.outputExists = false)
    (h3 : f.cropResult = process_image_result true false false) :
    stepFile skipEx s f = { s with failed := s.failed + 1 } := by
  have h4 : f.cropResult = none := by simpa [process_image_result] using h3
  simp [stepFile, h1, h2, h4]

/-- C4 witness: the amended statement applied to a concrete no-face file
and concrete statistics. -/
theorem no_face_no_fallback_counts_failed_witness :
    stepFile true ⟨1, 0, 0, 0⟩ noFaceFile = ⟨1, 0, 1, 0⟩ :=
  no_face_no_fallback_counts_failed true ⟨1, 0, 0, 0⟩ noFaceFile rfl rfl rfl

/-- Dimension equation for the slice width. -/
theorem npSlice_w (img : Img) (y1 y2 x1 x2 : ℤ) :
    (npSlice img y1 y2 x1 x2).w = npIdx img.w x2 - npIdx img.w x1 := rfl

/-- Dimension equation for the slice height. -/
theorem npSlice_h (img : Img) (y1 y2 x1 x2 : ℤ) :
    (npSlice img y1 y2 x1 x2).h = npIdx img.h y2 - npIdx img.h y1 := rfl

/-- Dimension equation for the bordered width. -/
theorem borderReflect_w (img : Img) (t b l r : ℕ) :
    (copyMakeBorderReflect img t b l r).w = img.w + l + r := rfl

/-- Dimension equation for the bordered height. -/
theorem borderReflect_h (img : Img) (t b l r : ℕ) :
    (copyMakeBorderReflect img t b l r).h = img.h + t + b := rfl

/-- C1: the extraction returns a buffer of exactly the requested
dimensions, for every source image (with at least one pixel), every crop
region with positive width and height — including regions partially or
fully outside the source bounds — and every padding mode. -/
theorem crop_with_padding_dims (c : Cropper) (img : Img) (cx cy cw ch : ℤ)
    (hw : 0 < cw) (hh : 0 < ch) (hiw : 0 < img.w) (hih : 0 < img.h) :
    ((crop_with_padding c img cx cy cw ch).w : ℤ) = cw ∧
    ((crop_with_padding c img cx cy cw ch).h : ℤ) = ch := by
  simp only [crop_with_padding]
  by_cases hm : c.padding_mode = "mirror"
  · rw [if_pos hm]
    by_cases hpad : (0 : ℤ) < max 0 (-cx) ∨ (0 : ℤ) < max 0 (-cy) ∨
        (0 : ℤ) < max 0 (cx + cw - (img.w : ℤ)) ∨ (0 : ℤ) < max 0 (cy + ch - (img.h : ℤ))
    · rw [if_pos hpad]
      constructor
      · rw [npSlice_w, borderReflect_w]
        unfold npIdx
        split_ifs <;> omega
      · rw [npSlice_h, borderReflect_h]
        unfold npIdx
        split_ifs <;> omega
    · rw [if_neg hpad]
      constructor
      · rw [npSlice_w]
        unfold npIdx
        split_ifs <;> omega
      · rw [npSlice_h]
        unfold npIdx
        split_ifs <;> omega
  · rw [if_neg hm]
    constructor
    · show ((cw.toNat : ℕ) : ℤ) = cw
      omega
    · show ((ch.toNat : ℕ) : ℤ) = ch
      omega

/-- A concrete 2x2 source image. -/
def imgC1 : Img := ⟨2, 2, fun _ _ => ⟨7, 7, 7⟩⟩

/-- Mirror-mode variant of the concrete configuration. -/
def cropperMirror : Cropper := { cropperC2 with padding_mode := "mirror" }

/-- C1 witness: a 3x4 crop placed at (-500, -500), fully outside a 2x2
source, in mirror mode, still yields a 3x4 buffer. -/
theorem crop_with_padding_dims_witness :
    ((crop_with_padding cropperMirror imgC1 (-500) (-500) 3 4).w : ℤ) = 3 ∧
    ((crop_with_padding cropperMirror imgC1 (-500) (-500) 3 4).h : ℤ) = 4 :=
  crop_with_padding_dims cropperMirror imgC1 (-500) (-500) 3 4
    (by decide) (by decide) (by decide) (by decide)

/-- Helper: in every non-mirror mode, an output pixel whose corresponding
source coordinate lies outside the source bounds holds the padding
color. -/
theorem crop_pix_oob (c : Cropper) (img : Img) (cx cy cw ch : ℤ) (i j : ℕ)
    (hm : c.padding_mode ≠ "mirror")
    (hoob : ¬ (0 ≤ cy + i ∧ cy + i < (img.h : ℤ) ∧ 0 ≤ cx + j ∧ cx + j < (img.w : ℤ))) :
    (crop_with_padding c img cx cy cw ch).pix i j = get_padding_color c img := by
  simp only [crop_with_padding]
  rw [if_neg hm]
  simp only []
  rw [if_neg (by omega)]

/-- C10: for every padding mode other than "average" and "mirror" —
including "white" and unrecognized strings such as "solid" — every
out-of-bounds output pixel is filled with opaque white (255, 255, 255);
an unknown mode takes the default branch and never errors. -/
theorem unknown_mode_pads_white (c : Cropper) (img : Img) (cx cy cw ch : ℤ) (i j : ℕ)
    (havg : c.padding_mode ≠ "average") (hmir : c.padding_mode ≠ "mirror")
    (_hi : (i : ℤ) < ch) (_hj : (j : ℤ) < cw)
    (hoob : ¬ (0 ≤ cy + i ∧ cy + i < (img.h : ℤ) ∧ 0 ≤ cx + j ∧ cx + j < (img.w : ℤ))) :
    (crop_with_padding c img cx cy cw ch).pix i j = ⟨255, 255, 255⟩ := by
  rw [crop_pix_oob c img cx cy cw ch i j hmir hoob]
  unfold get_padding_color
  by_cases h1 : c.padding_mode = "white"
  · rw [if_pos h1]
  · rw [if_neg h1, if_neg havg]

/-- Configuration whose padding mode is the unrecognized string "solid"
(the name the spec uses for the white mode). -/
def cropperSolid : Cropper := { cropperC2 with padding_mode := "solid" }

/-- C10 witness: with mode "solid", the out-of-bounds pixel (0,0) of a
crop fully outside a 2x2 source is white. -/
theorem unknown_mode_pads_white_witness :
    (crop_with_padding cropperSolid imgC1 (-500) (-500) 3 4).pix 0 0 = ⟨255, 255, 255⟩ :=
  unknown_mode_pads_white cropperSolid imgC1 (-500) (-500) 3 4 0 0
    (by decide) (by decide) (by decide) (by decide) (by decide)

/-- Average-mode variant of the concrete configuration. -/
def cropperAvg : Cropper := { cropperC2 with padding_mode := "average" }

/-- A 1x3 image with channel sums 254 + 255 + 255 = 764, so every channel
mean is 764/3 = 254.66..., which truncates to 254 but rounds to 255. -/
def imgAvg : Img :=
  ⟨1, 3, fun _ j => if j = 0 then ⟨254, 254, 254⟩ else ⟨255, 255, 255⟩⟩

/-- C7: counterexample.  On a 1x3 source with channel mean 764/3, the
out-of-bounds pixels of an average-mode crop are filled with the
truncated mean 254 per channel, while the spec's rounded-to-nearest mean
is 255 per channel. -/
theorem average_fill_not_rounded_cex :
    (crop_with_padding cropperAvg imgAvg (-5) (-5) 2 2).pix 0 0 = ⟨254, 254, 254⟩ ∧
    specAverageFill imgAvg = ⟨255, 255, 255⟩ := by
  constructor
  · rw [crop_pix_oob cropperAvg imgAvg (-5) (-5) 2 2 0 0 (by decide) (by decide)]
    unfold get_padding_color
    rw [if_neg (by decide), if_pos (by decide)]
    norm_num [imgAvg, channelSum, pyInt, Finset.sum_range_succ, Finset.sum_range_one]
    all_goals decide
  · norm_num [specAverageFill, imgAvg, channelSum, Finset.sum_range_succ,
      Finset.sum_range_one, round_eq]
    decide

/-- C7 (amended): in average mode the out-of-bounds fill is, per channel,
the arithmetic mean of all source pixels truncated (floored, since the
mean is nonnegative) to an integer, not rounded to the nearest. -/
theorem average_fill_is_floor_mean (c : Cropper) (img : Img) (cx cy cw ch : ℤ) (i j : ℕ)
    (hmode : c.padding_mode = "average")
    (_hi : (i : ℤ) < ch) (_hj : (j : ℤ) < cw)
    (hoob : ¬ (0 ≤ cy + i ∧ cy + i < (img.h : ℤ) ∧ 0 ≤ cx + j ∧ cx + j < (img.w : ℤ))) :
    (crop_with_padding c img cx cy cw ch).pix i j =
      ⟨(⌊(channelSum img Pix.b : ℚ) / ((img.h * img.w : ℕ) : ℚ)⌋).toNat,
       (⌊(channelSum img Pix.g : ℚ) / ((img.h * img.w : ℕ) : ℚ)⌋).toNat,
       (⌊(channelSum img Pix.r : ℚ) / ((img.h * img.w : ℕ) : ℚ)⌋).toNat⟩ := by
  rw [crop_pix_oob c img cx cy cw ch i j (by simp [hmode]) hoob]
  unfold get_padding_color
  rw [if_neg (by simp [hmode]), if_pos hmode]
  have hnn : ∀ s : ℕ, (0 : ℚ) ≤ (s : ℚ) / ((img.h * img.w : ℕ) : ℚ) :=
    fun s => div_nonneg (by positivity) (by positivity)
  simp only [pyInt, Pix.mk.injEq]
  refine ⟨?_, ?_, ?_⟩ <;> rw [if_pos (hnn _)]

/-- C7 witness for the amended statement: the concrete average-mode fill
equals the floored channel means of the 1x3 image. -/
theorem average_fill_is_floor_mean_witness :
    (crop_with_padding cropperAvg imgAvg (-5) (-5) 2 2).pix 0 0 =
      ⟨(⌊(channelSum imgAvg Pix.b : ℚ) / ((imgAvg.h * imgAvg.w : ℕ) : ℚ)⌋).toNat,
       (⌊(channelSum imgAvg Pix.g : ℚ) / ((imgAvg.h * imgAvg.w : ℕ) : ℚ)⌋).toNat,
       (⌊(channelSum imgAvg Pix.r : ℚ) / ((imgAvg.h * imgAvg.w : ℕ) : ℚ)⌋).toNat⟩ :=
  average_fill_is_floor_mean cropperAvg imgAvg (-5) (-5) 2 2 0 0 rfl
    (by decide) (by decide) (by decide)

/-- Helper: truncation toward zero agrees with floor on nonnegative
rationals. -/
theorem pyInt_eq_floor (q : ℚ) (h : 0 ≤ q) : pyInt q = ⌊q⌋ := if_pos h

/-- C3: the resolution normalizer upscales a too-short buffer to exactly
min_output_height with width scaled proportionally and floored, returns
buffers of sufficient height unchanged (never downscales) when
preserve_resolution is set, and otherwise resizes unconditionally to
floor(width_mm * 10) by floor(height_mm * 10) pixels. -/
theorem normalize_resolution_policy (c : Cropper)
    (hW : 0 < c.width_mm) (hH : 0 < c.height_mm)
    (hdw : c.default_output_width = pyInt (c.width_mm * 10))
    (hdh : c.default_output_height = pyInt (c.height_mm * 10)) :
    (∀ img : Img, c.preserve_resolution = true → 0 < img.h →
      (img.h : ℤ) < c.min_output_height →
      ((normalize_resolution c img).h : ℤ) = c.min_output_height ∧
      ((normalize_resolution c img).w : ℤ) =
        ⌊(img.w : ℚ) * (c.min_output_height : ℚ) / (img.h : ℚ)⌋) ∧
    (∀ img : Img, c.preserve_resolution = true →
      c.min_output_height ≤ (img.h : ℤ) → normalize_resolution c img = img) ∧
    (∀ img : Img, c.preserve_resolution = false →
      ((normalize_resolution c img).w : ℤ) = ⌊c.width_mm * 10⌋ ∧
      ((normalize_resolution c img).h : ℤ) = ⌊c.height_mm * 10⌋) := by
  refine ⟨?_, ?_, ?_⟩
  · intro img hpres himg hlt
    have hmin : 0 < c.min_output_height := by omega
    simp only [normalize_resolution, hpres, if_true]
    rw [if_pos hlt]
    constructor
    · simp only [cvResize]
      omega
    · simp only [cvResize]
      have hq : (0 : ℚ) ≤ (img.w : ℚ) * ((c.min_output_height : ℚ) / (img.h : ℚ)) := by
        apply mul_nonneg (by positivity)
        apply div_nonneg _ (by positivity)
        exact_mod_cast hmin.le
      have heq : (img.w : ℚ) * ((c.min_output_height : ℚ) / (img.h : ℚ)) =
          (img.w : ℚ) * (c.min_output_height : ℚ) / (img.h : ℚ) := (mul_div_assoc _ _ _).symm
      have hq2 : (0 : ℚ) ≤ (img.w : ℚ) * (c.min_output_height : ℚ) / (img.h : ℚ) := by
        rw [← heq]
        exact hq
      rw [pyInt_eq_floor _ hq, heq]
      have hfl : 0 ≤ ⌊(img.w : ℚ) * (c.min_output_height : ℚ) / (img.h : ℚ)⌋ :=
        Int.floor_nonneg.mpr hq2
      omega
  · intro img hpres hge
    simp only [normalize_resolution, hpres, if_true]
    rw [if_neg (by omega)]
  · intro img hpres
    simp only [normalize_resolution, hpres, Bool.false_eq_true, if_false, cvResize]
    have hw10 : (0 : ℚ) ≤ c.width_mm * 10 := by positivity
    have hh10 : (0 : ℚ) ≤ c.height_mm * 10 := by positivity
    have hfw : 0 ≤ ⌊c.width_mm * 10⌋ := Int.floor_nonneg.mpr hw10
    have hfh : 0 ≤ ⌊c.height_mm * 10⌋ := Int.floor_nonneg.mpr hh10
    rw [hdw, hdh, pyInt_eq_floor _ hw10, pyInt_eq_floor _ hh10]
    constructor <;> omega

/-- Fixed-output variant: 55x85 mm target with preserve_resolution
disabled. -/
def cropperFix : Cropper :=
  { cropperC2 with
      preserve_resolution := false
      height_mm := 85
      aspect_ratio := 55 / 85
      default_output_height := 850 }

/-- A 300x400 buffer (height below the 850 minimum). -/
def img300x400 : Img := ⟨400, 300, fun _ _ => ⟨0, 0, 0⟩⟩

/-- A 300x1000 buffer (height above the 850 minimum). -/
def imgTall : Img := ⟨1000, 300, fun _ _ => ⟨0, 0, 0⟩⟩

/-- C3 witness: a height-400 crop is upscaled to 850 with width
floor(300 * 850 / 400) = 637; a height-1000 crop is returned unchanged;
with preserve_resolution off the output is exactly 550x850. -/
theorem normalize_resolution_policy_witness :
    ((normalize_resolution cropperC2 img300x400).h : ℤ) = 850 ∧
    ((normalize_resolution cropperC2 img300x400).w : ℤ) = 637 ∧
    normalize_resolution cropperC2 imgTall = imgTall ∧
    ((normalize_resolution cropperFix img300x400).w : ℤ) = 550 ∧
    ((normalize_resolution cropperFix img300x400).h : ℤ) = 850 := by
  obtain ⟨h1, h2, _⟩ := normalize_resolution_policy cropperC2
    (by norm_num [cropperC2]) (by norm_num [cropperC2])
    (by norm_num [cropperC2, pyInt]) (by norm_num [cropperC2, pyInt])
  obtain ⟨_, _, h3⟩ := normalize_resolution_policy cropperFix
    (by norm_num [cropperFix, cropperC2]) (by norm_num [cropperFix, cropperC2])
    (by norm_num [cropperFix, cropperC2, pyInt]) (by norm_num [cropperFix, cropperC2, pyInt])
  obtain ⟨ha, hb⟩ := h1 img300x400 rfl (by norm_num [img300x400])
    (by norm_num [img300x400, cropperC2])
  obtain ⟨hc, hd⟩ := h3 img300x400 rfl
  refine ⟨ha.trans (by norm_num [cropperC2]), hb.trans ?_,
    h2 imgTall rfl (by norm_num [imgTall, cropperC2]),
    hc.trans (by norm_num [cropperFix, cropperC2]),
    hd.trans (by norm_num [cropperFix, cropperC2])⟩
  norm_num [img300x400, cropperC2]
